import Mathlib

/-
Verification of the `nospin` crate: single-threaded lock-shaped primitives
(`Mutex`, `RwLock`, `Once`, `Lazy`).  Each Rust operation is embedded as a
pure Lean function on an explicit state:

* `RwLock` (src/rwlock.rs): the packed `NonAtomicUsize` lock word is a `Nat`
  below `2 ^ 64`; `fetch_add` / `fetch_sub` wrap modulo `2 ^ 64` exactly as
  release-mode `usize` arithmetic does, and `compare_exchange` is the plain
  read-compare-write of `NonAtomicUsize::compare_exchange`.
* `Mutex` (src/mutex.rs): the state is the `locked: bool` flag.
* `Once` (src/once.rs): the reachable configurations of the triple
  `(initialized, panicked, data)` in a single-threaded execution are
  `(false, false, unwritten)`, `(false, true, unwritten)` and
  `(true, false, written v)`; they are embedded as the three-state inductive
  `OnceState` (`uninit` / `poisoned` / `complete v`).
* `Lazy` (src/lazy.rs): an `OnceState` for the `cell` field plus an
  `Option` for the `init: Cell<Option<F>>` field, where the stored `FnOnce`
  closure is represented by the value it would return.

Operations that can panic return the panic as an explicit constructor so that
every function is total and executable.
-/

namespace Nospin

/-! ### RwLock state constants (src/rwlock.rs, lines 157-159) -/

/-- Width of `usize` (64-bit targets): the packed lock word lives below this. -/
def USIZE : Nat := 2 ^ 64

/-- `const WRITER: usize = 1;` -/
def WRITER : Nat := 1

/-- `const UPGRADED: usize = 1 << 1;` -/
def UPGRADED : Nat := 2

/-- `const READER: usize = 1 << 2;` -/
def READER : Nat := 4

/-- `const MAX_READERS: usize = usize::MAX / READER / 2;`
(from `RwLock::acquire_reader`, line 327). -/
def MAX_READERS : Nat := (USIZE - 1) / READER / 2

/-- `NonAtomicUsize::compare_exchange` (src/rwlock.rs, lines 83-97): reads the
cell; on an exact match with `current` it writes `new` and reports success,
otherwise it leaves the cell untouched.  Result: (succeeded, state after). -/
def compare_exchange (s current new : Nat) : Bool × Nat :=
  if s = current then (true, new) else (false, s)

namespace RwLock

/-- `RwLock::acquire_reader` (src/rwlock.rs, lines 325-337):
`fetch_add(READER)` (wrapping, as release-mode `usize` addition), then if the
previous value exceeded `MAX_READERS * READER` the addition is undone and the
function panics.  `.error p` is the panic with the lock word left at `p`;
`.ok (old, s1)` returns the pre-add value `old` (the value `fetch_add`
returns) and the lock word `s1` after the addition. -/
def acquire_reader (s : Nat) : Except Nat (Nat × Nat) :=
  let s1 := (s + READER) % USIZE
  if s > MAX_READERS * READER then
    Except.error ((s1 + USIZE - READER) % USIZE)
  else
    Except.ok (s, s1)

/-- `RwLock::try_read` (src/rwlock.rs, lines 362-377): `acquire_reader`, then
if the previous value had `WRITER` or `UPGRADED` set, `fetch_sub(READER)`
undoes the addition and no guard is produced.  Result inside `.ok`:
(guard produced, lock word after). -/
def try_read (s : Nat) : Except Nat (Bool × Nat) :=
  match acquire_reader s with
  | Except.error p => Except.error p
  | Except.ok (old, s1) =>
    if old &&& (WRITER ||| UPGRADED) ≠ 0 then
      Except.ok (false, (s1 + USIZE - READER) % USIZE)
    else
      Except.ok (true, s1)

/-- `RwLock::try_write` (src/rwlock.rs, lines 450-463):
`compare_exchange(0, WRITER)`; a guard is produced exactly on success.
Result: (guard produced, lock word after). -/
def try_write (s : Nat) : Bool × Nat :=
  compare_exchange s 0 WRITER

/-- `RwLock::try_upgradeable_read` (src/rwlock.rs, lines 476-487):
`fetch_or(UPGRADED)`; a guard is produced exactly when the previous value had
neither `WRITER` nor `UPGRADED` set.  The `UPGRADED` bit stays set even on
failure ("we can't unflip the UPGRADED bit back just yet").
Result: (guard produced, lock word after). -/
def try_upgradeable_read (s : Nat) : Bool × Nat :=
  (s &&& (WRITER ||| UPGRADED) == 0, s ||| UPGRADED)

/-- `RwLock::reader_count` (src/rwlock.rs, lines 385-388). -/
def reader_count (s : Nat) : Nat :=
  s / READER + (s &&& UPGRADED) / UPGRADED

/-- `RwLock::writer_count` (src/rwlock.rs, lines 398-400). -/
def writer_count (s : Nat) : Nat :=
  (s &&& WRITER) / WRITER

end RwLock

/-- `Drop for RwLockReadGuard` (src/rwlock.rs, lines 810-815):
`fetch_sub(READER)` (wrapping `usize` subtraction). -/
def readGuardDrop (s : Nat) : Nat :=
  (s + USIZE - READER) % USIZE

/-- `Drop for RwLockUpgradableGuard` (src/rwlock.rs, lines 817-825):
`fetch_sub(UPGRADED)` (wrapping `usize` subtraction). -/
def upgradableGuardDrop (s : Nat) : Nat :=
  (s + USIZE - UPGRADED) % USIZE

/-- `Drop for RwLockWriteGuard` (src/rwlock.rs, lines 827-837):
`fetch_and(!(WRITER | UPGRADED))`, clearing both bits. -/
def writeGuardDrop (s : Nat) : Nat :=
  s &&& (USIZE - 1 - (WRITER ||| UPGRADED))

/-- `RwLockUpgradableGuard::try_upgrade` (src/rwlock.rs, lines 592-612):
`compare_exchange(UPGRADED, WRITER)`; on success the old guard is forgotten
(its drop never runs) and a write guard is produced; on failure the guard is
handed back and the lock word is untouched.
Result: (upgrade succeeded, lock word after). -/
def try_upgrade (s : Nat) : Bool × Nat :=
  compare_exchange s UPGRADED WRITER

/-- `RwLockWriteGuard::downgrade` (src/rwlock.rs, lines 697-710):
`acquire_reader` first (reserving the read slot), and only then the write
guard is dropped (clearing `WRITER | UPGRADED`).  `.ok (mid, fin)` gives the
intermediate lock word between the two steps and the final lock word. -/
def RwLockWriteGuard.downgrade (s : Nat) : Except Nat (Nat × Nat) :=
  match RwLock.acquire_reader s with
  | Except.error p => Except.error p
  | Except.ok (_, s1) => Except.ok (s1, writeGuardDrop s1)

/-- `RwLockUpgradableGuard::downgrade` (src/rwlock.rs, lines 637-650):
`acquire_reader` first, and only then the upgradable guard is dropped
(`fetch_sub(UPGRADED)`).  `.ok (mid, fin)` gives the intermediate lock word
between the two steps and the final lock word. -/
def RwLockUpgradableGuard.downgrade (s : Nat) : Except Nat (Nat × Nat) :=
  match RwLock.acquire_reader s with
  | Except.error p => Except.error p
  | Except.ok (_, s1) => Except.ok (s1, upgradableGuardDrop s1)

/-! ### Mutex (src/mutex.rs) -/

/-- Outcome of `Mutex::lock`: either the "Mutex is already locked" panic or a
guard together with the flag value after acquisition. -/
inductive MutexLock where
  | panicked : MutexLock
  | acquired (locked : Bool) : MutexLock
deriving DecidableEq, Repr

/-- `Mutex::is_locked` (src/mutex.rs, lines 138-140): reads the flag. -/
def Mutex.is_locked (locked : Bool) : Bool := locked

/-- `Mutex::lock` (src/mutex.rs, lines 157-168): panics if the flag is set,
otherwise sets it and returns a guard. -/
def Mutex.lock (locked : Bool) : MutexLock :=
  if Mutex.is_locked locked then MutexLock.panicked else MutexLock.acquired true

/-- `Mutex::try_lock` (src/mutex.rs, lines 185-197): `none` if the flag is
set, otherwise sets it and returns a guard (`some` of the new flag value). -/
def Mutex.try_lock (locked : Bool) : Option Bool :=
  if Mutex.is_locked locked then none else some true

/-- `Drop for MutexGuard` (src/mutex.rs, lines 219-223): clears the flag. -/
def MutexGuard.drop (_locked : Bool) : Bool := false

/-! ### Once (src/once.rs)

Reachable configurations of `(initialized, panicked, data)` under the public
single-threaded API:
`uninit` is `(false, false, unwritten)`, `poisoned` is
`(false, true, unwritten)` (a closure panicked while `panicked` was set),
`complete v` is `(true, false, written v)`. -/

/-- State of a `Once<T>` (src/once.rs, lines 25-29). -/
inductive OnceState (T : Type) where
  | uninit : OnceState T
  | poisoned : OnceState T
  | complete (v : T) : OnceState T
deriving DecidableEq, Repr

/-- Behaviour of the closure handed to `try_call_once`: it returns `Ok`,
returns `Err`, or panics (unwinds) without returning. -/
inductive ClosureOut (T E : Type) where
  | ok (v : T) : ClosureOut T E
  | err (e : E) : ClosureOut T E
  | panics : ClosureOut T E
deriving DecidableEq, Repr

/-- Outcome of `Once::try_call_once`: the "Initialization panicked" poison
panic, the closure's own panic propagating, a reference to the stored value,
or the closure's error. -/
inductive OnceCallResult (T E : Type) where
  | poisonPanic : OnceCallResult T E
  | closurePanic : OnceCallResult T E
  | ok (v : T) : OnceCallResult T E
  | err (e : E) : OnceCallResult T E
deriving DecidableEq, Repr

/-- `Once::try_call_once` (src/once.rs, lines 183-198).  If `panicked` is
set: panic.  If `initialized`: return the stored value, closure not invoked.
Otherwise `panicked` is set, the closure runs, `panicked` is cleared once it
returns; `Err` propagates via `?` before anything is written (state back to
`uninit`), `Ok(v)` is written to the slot and `initialized` is set.  A panic
inside the closure leaves `panicked` set (`poisoned`).  The final `Bool`
reports whether the closure was invoked. -/
def Once.try_call_once {T E : Type} (s : OnceState T) (f : ClosureOut T E) :
    OnceCallResult T E × OnceState T × Bool :=
  match s with
  | OnceState.poisoned => (OnceCallResult.poisonPanic, s, false)
  | OnceState.complete v => (OnceCallResult.ok v, s, false)
  | OnceState.uninit =>
    match f with
    | ClosureOut.ok v => (OnceCallResult.ok v, OnceState.complete v, true)
    | ClosureOut.err e => (OnceCallResult.err e, OnceState.uninit, true)
    | ClosureOut.panics => (OnceCallResult.closurePanic, OnceState.poisoned, true)

/-- `Once::call_once` (src/once.rs, lines 144-149): `try_call_once` with the
infallible closure `|| Ok(f())`, here a closure returning `v`.  `none` models
the poison panic; `some r` is the returned reference.  The final `Bool`
reports whether the closure was invoked. -/
def Once.call_once {T : Type} (s : OnceState T) (v : T) :
    Option T × OnceState T × Bool :=
  match Once.try_call_once s (ClosureOut.ok v : ClosureOut T Empty) with
  | (OnceCallResult.ok r, s2, inv) => (some r, s2, inv)
  | (_, s2, inv) => (none, s2, inv)

/-- `Once::get` (src/once.rs, lines 201-203). -/
def Once.get {T : Type} : OnceState T → Option T
  | OnceState.complete v => some v
  | _ => none

/-- `Once::is_completed` (src/once.rs, lines 272-274): reads `initialized`. -/
def Once.is_completed {T : Type} : OnceState T → Bool
  | OnceState.complete _ => true
  | _ => false

/-- `Once::initialized` (src/once.rs, lines 246-252): constructs the state
`(initialized = true, panicked = false, data = written v)`. -/
def Once.initialized {T : Type} (v : T) : OnceState T :=
  OnceState.complete v

/-- `impl From<T> for Once<T>` (src/once.rs, lines 43-47): delegates to
`Once::initialized`. -/
def Once.fromValue {T : Type} (v : T) : OnceState T :=
  Once.initialized v

/-- A sequence of `call_once` calls, one per closure in the list; returns the
value observed by each call, the final state, and how many of the supplied
closures were invoked. -/
def Once.runCallOnce {T : Type} (s : OnceState T) :
    List T → List (Option T) × OnceState T × Nat
  | [] => ([], s, 0)
  | v :: rest =>
    let (r, s1, inv) := Once.call_once s v
    let (rs, s2, m) := Once.runCallOnce s1 rest
    (r :: rs, s2, (if inv then 1 else 0) + m)

/-! ### Lazy (src/lazy.rs) -/

/-- State of a `Lazy<T, F>` (src/lazy.rs, lines 37-40): the inner `Once`
plus `init: Cell<Option<F>>`, the stored initializer function represented by
the value it would return (`none` once taken). -/
structure LazyState (T : Type) where
  cell : OnceState T
  init : Option T
deriving DecidableEq, Repr

/-- `Lazy::new` (src/lazy.rs, lines 60-65): fresh `Once`, stored function
present, not yet invoked. -/
def Lazy.new {T : Type} (r : T) : LazyState T :=
  { cell := OnceState.uninit, init := some r }

/-- `Lazy::force` (src/lazy.rs, lines 92-97):
`cell.call_once(|| match init.take() { Some f => f(), None => panic })`.
The closure, if invoked, takes the stored function (leaving `none`) and
either runs it or panics when it was already taken.  `none` in the first
component models a panic (poisoned `Once` or taken initializer).  The final
`Nat` counts invocations of the stored initializer function (0 or 1). -/
def Lazy.force {T : Type} (ls : LazyState T) : Option T × LazyState T × Nat :=
  let cl : ClosureOut T Empty :=
    match ls.init with
    | some r => ClosureOut.ok r
    | none => ClosureOut.panics
  match Once.try_call_once ls.cell cl with
  | (OnceCallResult.ok r, c2, inv) =>
    (some r, { cell := c2, init := if inv then none else ls.init },
     if inv && ls.init.isSome then 1 else 0)
  | (_, c2, inv) =>
    (none, { cell := c2, init := if inv then none else ls.init },
     if inv && ls.init.isSome then 1 else 0)

/-- `n` successive forced accesses (`Lazy::force`, or equivalently the
`Deref` impl of src/lazy.rs lines 100-106, which delegates to `force`):
returns each access's result, the final state, and the total number of
invocations of the stored initializer function. -/
def Lazy.forceN {T : Type} (ls : LazyState T) :
    Nat → List (Option T) × LazyState T × Nat
  | 0 => ([], ls, 0)
  | n + 1 =>
    let (r, ls1, k) := Lazy.force ls
    let (rs, ls2, m) := Lazy.forceN ls1 n
    (r :: rs, ls2, k + m)

/-! ### Arithmetic helpers for the packed lock word -/

lemma and_one_eq (x : Nat) : x &&& 1 = x % 2 :=
  Nat.and_one_is_mod x

lemma and_two_eq (x : Nat) : x &&& 2 = x / 2 % 2 * 2 := by
  have h := Nat.and_two_pow x 1
  rw [Nat.testBit_to_div_mod] at h
  norm_num at h
  by_cases hb : x / 2 % 2 = 1
  · simp [hb] at h
    omega
  · simp [hb] at h
    omega

lemma and_three_eq (x : Nat) : x &&& 3 = x % 4 := by
  have h := Nat.and_pow_two_sub_one_eq_mod x 2
  norm_num at h
  exact h

/-! ### Claim theorems -/

/-- C1: `RwLock::try_write` succeeds if and only if the packed lock state is
exactly 0, in which case the state becomes `WRITER` and a write guard is
produced; in every other state no guard is produced and the state is left
unchanged; in particular `try_write` never succeeds while `reader_count` or
`writer_count` is positive. -/
theorem try_write_iff_state_zero (s : Nat) :
    ((RwLock.try_write s).1 = true ↔ s = 0)
    ∧ RwLock.try_write 0 = (true, WRITER)
    ∧ (s ≠ 0 → RwLock.try_write s = (false, s))
    ∧ (0 < RwLock.reader_count s ∨ 0 < RwLock.writer_count s →
        (RwLock.try_write s).1 = false) := by
  refine ⟨?_, rfl, ?_, ?_⟩
  · unfold RwLock.try_write compare_exchange
    by_cases hs : s = 0 <;> simp [hs]
  · intro hs
    unfold RwLock.try_write compare_exchange
    simp [hs]
  · intro hcount
    unfold RwLock.try_write compare_exchange
    by_cases hs : s = 0
    · subst hs
      simp [RwLock.reader_count, RwLock.writer_count] at hcount
    · simp [hs]

/-- Witness for C1: at state `6 = UPGRADED + READER`, `try_write` produces no
guard and leaves the state unchanged. -/
theorem try_write_iff_state_zero_witness :
    Nospin.RwLock.try_write 6 = (false, 6) :=
  (try_write_iff_state_zero 6).2.2.1 (by decide)

/-- C3: `Mutex::lock` panics exactly when the `locked` flag is already set and
otherwise sets the flag and returns a guard; `Mutex::try_lock` returns no
guard exactly when the flag is already set and otherwise sets the flag and
returns a guard; dropping the guard clears the flag, after which a subsequent
`lock`/`try_lock` succeeds again. -/
theorem mutex_lock_try_lock_drop (b : Bool) :
    (Mutex.lock b = MutexLock.panicked ↔ b = true)
    ∧ (Mutex.lock b = MutexLock.acquired true ↔ b = false)
    ∧ (Mutex.try_lock b = none ↔ b = true)
    ∧ (Mutex.try_lock b = some true ↔ b = false)
    ∧ MutexGuard.drop b = false
    ∧ Mutex.lock (MutexGuard.drop b) = MutexLock.acquired true
    ∧ Mutex.try_lock (MutexGuard.drop b) = some true := by
  cases b <;> decide

/-- Below the overflow bound, `acquire_reader` does not panic: it returns the
old value and the lock word increased by one `READER` unit. -/
lemma acquire_reader_below_bound (s : Nat) (h : s ≤ MAX_READERS * READER) :
    RwLock.acquire_reader s = Except.ok (s, s + READER) := by
  have hb : ¬ s > MAX_READERS * READER := by omega
  have h4 : s + READER < USIZE := by
    simp [MAX_READERS, USIZE, READER] at h ⊢
    omega
  unfold RwLock.acquire_reader
  simp only [if_neg hb, Nat.mod_eq_of_lt h4]

/-- C4: for every state below the reader-overflow bound, `try_read` adds one
`READER` unit to the packed state; if the state had the `WRITER` or
`UPGRADED` bit set, the addition is undone and no guard is produced with the
state equal to what it was before the call; otherwise a read guard is
produced and the state is exactly the old state plus `READER`. -/
theorem try_read_add_then_undo (s : Nat) (h : s ≤ MAX_READERS * READER) :
    (s &&& (WRITER ||| UPGRADED) = 0 →
      RwLock.try_read s = Except.ok (true, s + READER))
    ∧ (s &&& (WRITER ||| UPGRADED) ≠ 0 →
      RwLock.try_read s = Except.ok (false, s)) := by
  have hacq := acquire_reader_below_bound s h
  have hlt : s < USIZE := by
    simp [MAX_READERS, USIZE, READER] at h ⊢
    omega
  have hundo : (s + READER + USIZE - READER) % USIZE = s := by
    unfold USIZE READER
    unfold USIZE at hlt
    omega
  constructor
  · intro hz
    unfold RwLock.try_read
    rw [hacq]
    simp [hz]
  · intro hz
    unfold RwLock.try_read
    rw [hacq]
    simp only []
    rw [if_pos hz, hundo]

/-- Witness for C4: from the empty state, `try_read` succeeds and moves the
state to `READER`; from state `WRITER` it fails and leaves the state. -/
theorem try_read_add_then_undo_witness :
    RwLock.try_read 0 = Except.ok (true, 0 + READER)
    ∧ RwLock.try_read 1 = Except.ok (false, 1) :=
  ⟨(try_read_add_then_undo 0 (by decide)).1 (by decide),
   (try_read_add_then_undo 1 (by decide)).2 (by decide)⟩

/-- C6: during downgrade of a Write guard (or an Upgradable guard) to a Read
guard, one `READER` unit is added before the `WRITER`/`UPGRADED` bit is
cleared, so the intermediate packed state is never 0 and an external
`try_write` interleaved between the two steps fails and changes nothing; for
a Write guard downgrade starting from state `WRITER`, the final state is
exactly `READER`. -/
theorem downgrade_no_open_window (s : Nat) (h : s ≤ MAX_READERS * READER) :
    RwLockWriteGuard.downgrade s
      = Except.ok (s + READER, writeGuardDrop (s + READER))
    ∧ RwLockUpgradableGuard.downgrade s
      = Except.ok (s + READER, upgradableGuardDrop (s + READER))
    ∧ s + READER ≠ 0
    ∧ RwLock.try_write (s + READER) = (false, s + READER)
    ∧ RwLockWriteGuard.downgrade WRITER = Except.ok (WRITER + READER, READER) := by
  have hacq := acquire_reader_below_bound s h
  refine ⟨?_, ?_, ?_, ?_, ?_⟩
  · unfold RwLockWriteGuard.downgrade
    rw [hacq]
  · unfold RwLockUpgradableGuard.downgrade
    rw [hacq]
  · simp [READER]
  · unfold RwLock.try_write compare_exchange
    simp [READER]
  · have h1 := acquire_reader_below_bound WRITER (by decide)
    unfold RwLockWriteGuard.downgrade
    rw [h1]
    simp only []
    rw [show writeGuardDrop (WRITER + READER) = READER from by decide]

/-- Witness for C6: downgrading a write guard from state `WRITER` passes
through the nonzero intermediate state `WRITER + READER`, on which an
interleaved `try_write` fails. -/
theorem downgrade_no_open_window_witness :
    RwLock.try_write (1 + READER) = (false, 1 + READER) :=
  (downgrade_no_open_window 1 (by decide)).2.2.2.1

/-- C5: while an upgradable guard is held (the `UPGRADED` bit is set and the
`WRITER` bit is clear), `try_upgrade` succeeds if and only if zero plain
readers are concurrently held, equivalently iff the packed state is exactly
`UPGRADED`; on success the state becomes `WRITER` (the consumed guard's
`fetch_sub(UPGRADED)` release never fires, the single `compare_exchange` is
the whole transition); on failure the guard is handed back and the packed
state is unchanged. -/
theorem try_upgrade_iff_no_plain_readers (s : Nat)
    (hu : s &&& UPGRADED = UPGRADED) (hw : s &&& WRITER = 0) :
    ((try_upgrade s).1 = true ↔ s / READER = 0)
    ∧ ((try_upgrade s).1 = true ↔ s = UPGRADED)
    ∧ ((try_upgrade s).1 = true → try_upgrade s = (true, WRITER))
    ∧ ((try_upgrade s).1 = false → try_upgrade s = (false, s)) := by
  rw [show UPGRADED = 2 from rfl, and_two_eq] at hu
  rw [show WRITER = 1 from rfl, and_one_eq] at hw
  unfold try_upgrade compare_exchange
  by_cases hs : s = UPGRADED
  · subst hs
    simp [UPGRADED, READER, WRITER]
  · have hns : s ≠ 2 := by simpa [UPGRADED] using hs
    have hnr : ¬ s / READER = 0 := by
      simp only [READER]
      omega
    rw [if_neg hs]
    exact ⟨by simp [hnr], by simp [hs], by simp, fun _ => rfl⟩

/-- Witness for C5: at state exactly `UPGRADED` the upgrade succeeds and the
state becomes `WRITER`; at state `UPGRADED + READER` (one plain reader) it
fails and leaves the state unchanged. -/
theorem try_upgrade_iff_no_plain_readers_witness :
    Nospin.try_upgrade 2 = (true, WRITER)
    ∧ Nospin.try_upgrade 6 = (false, 6) :=
  ⟨(try_upgrade_iff_no_plain_readers 2 (by decide) (by decide)).2.2.1 (by decide),
   (try_upgrade_iff_no_plain_readers 6 (by decide) (by decide)).2.2.2 (by decide)⟩

/-- C7: `try_upgradeable_read` sets the `UPGRADED` bit in the packed state
unconditionally, and succeeds if and only if neither `WRITER` nor `UPGRADED`
was set before the call; on failure the post-call state is the old state with
the `UPGRADED` bit set (the failed caller does not clear it), and the bit is
cleared by the release of a write guard or of an upgradable guard (the active
holder), each of which leaves the `UPGRADED` bit clear. -/
theorem upgradeable_read_shared_gate (s t : Nat)
    (ht : t &&& UPGRADED = UPGRADED) (htl : t < USIZE) :
    (RwLock.try_upgradeable_read s).2 = (s ||| UPGRADED)
    ∧ ((RwLock.try_upgradeable_read s).1 = true ↔
        s &&& WRITER = 0 ∧ s &&& UPGRADED = 0)
    ∧ writeGuardDrop t &&& UPGRADED = 0
    ∧ upgradableGuardDrop t &&& UPGRADED = 0 := by
  refine ⟨rfl, ?_, ?_, ?_⟩
  · unfold RwLock.try_upgradeable_read
    rw [show WRITER ||| UPGRADED = 3 from rfl]
    simp only [show WRITER = 1 from rfl, show UPGRADED = 2 from rfl,
      and_one_eq, and_two_eq, and_three_eq]
    simp only [Prod.fst, beq_iff_eq]
    omega
  · unfold writeGuardDrop
    rw [Nat.and_assoc,
      show ((USIZE - 1 - (WRITER ||| UPGRADED)) &&& UPGRADED) = 0 from by decide,
      Nat.and_zero]
  · unfold upgradableGuardDrop
    rw [show UPGRADED = 2 from rfl] at ht ⊢
    rw [and_two_eq] at ht ⊢
    rw [show ((t + USIZE - 2) % USIZE) = t - 2 from by
      unfold USIZE
      unfold USIZE at htl
      omega]
    omega

/-- Witness for C7: a failed `try_upgradeable_read` against a live write
guard leaves the bit set, and the holders' releases clear it. -/
theorem upgradeable_read_shared_gate_witness :
    (RwLock.try_upgradeable_read WRITER).2 = (WRITER ||| UPGRADED)
    ∧ writeGuardDrop 3 &&& UPGRADED = 0
    ∧ upgradableGuardDrop 6 &&& UPGRADED = 0 :=
  ⟨(upgradeable_read_shared_gate WRITER 3 (by decide) (by decide)).1,
   (upgradeable_read_shared_gate WRITER 3 (by decide) (by decide)).2.2.1,
   (upgradeable_read_shared_gate WRITER 6 (by decide) (by decide)).2.2.2⟩

/-- From a completed `Once`, any further `call_once` returns the cached value
and never invokes its closure. -/
lemma runCallOnce_complete {T : Type} (u : T) (fs : List T) :
    Once.runCallOnce (OnceState.complete u) fs
      = (List.replicate fs.length (some u), OnceState.complete u, 0) := by
  induction fs with
  | nil => rfl
  | cons v rest ih =>
    simp [Once.runCallOnce, Once.call_once, Once.try_call_once, ih,
      List.replicate]

/-- C2: for `N = fs.length + 1 ≥ 1` calls to `call_once` on one instance
starting uninitialized, the initializing closure runs exactly on the first
call and never again: every call observes the identical value of the first
closure, and once complete, `try_call_once` with any closure (succeeding,
failing or panicking) also returns the cached value without invoking it. -/
theorem call_once_invokes_at_most_once {T E : Type} (v u : T) (fs : List T)
    (g : ClosureOut T E) :
    Once.runCallOnce OnceState.uninit (v :: fs)
      = (List.replicate (fs.length + 1) (some v), OnceState.complete v, 1)
    ∧ Once.try_call_once (OnceState.complete u) g
      = (OnceCallResult.ok u, OnceState.complete u, false) := by
  constructor
  · simp [Once.runCallOnce, Once.call_once, Once.try_call_once,
      runCallOnce_complete, List.replicate]
  · rfl

/-- C8: from an uninitialized, non-poisoned `Once`, a closure error makes
`try_call_once` return that error with the `Once` still uninitialized and
non-poisoned (`get` reports absence, `is_completed` is false, nothing is in
the slot), and a later `try_call_once` with a different initializer still
runs it and completes. -/
theorem try_call_once_err_leaves_uninit {T E : Type} (e : E) (v : T) :
    Once.try_call_once (OnceState.uninit : OnceState T) (ClosureOut.err e)
      = (OnceCallResult.err e, OnceState.uninit, true)
    ∧ Once.get (OnceState.uninit : OnceState T) = none
    ∧ Once.is_completed (OnceState.uninit : OnceState T) = false
    ∧ Once.try_call_once (OnceState.uninit : OnceState T)
        (ClosureOut.ok v : ClosureOut T E)
      = (OnceCallResult.ok v, OnceState.complete v, true) :=
  ⟨rfl, rfl, rfl, rfl⟩

/-- C10: `Once::initialized v` (and the `From<T>` conversion built on it) is
already complete with no closure having run: `is_completed` is true, `get`
returns `v`, and a subsequent `call_once` with any closure returns `v`
without invoking it. -/
theorem initialized_is_complete {T : Type} (v w : T) :
    Once.is_completed (Once.initialized v) = true
    ∧ Once.get (Once.initialized v) = some v
    ∧ Once.call_once (Once.initialized v) w = (some v, Once.initialized v, false)
    ∧ Once.fromValue v = Once.initialized v :=
  ⟨rfl, rfl, rfl, rfl⟩

/-- Forcing a `Lazy` whose `Once` is complete and whose stored initializer
has been taken returns the cached value and invokes nothing. -/
lemma forceN_complete {T : Type} (r : T) (n : Nat) :
    Lazy.forceN { cell := OnceState.complete r, init := none } n
      = (List.replicate n (some r),
         { cell := OnceState.complete r, init := none }, 0) := by
  induction n with
  | zero => rfl
  | succ n ih =>
    simp [Lazy.forceN, Lazy.force, Once.try_call_once, ih, List.replicate]

/-- C9: for `N = n + 1 ≥ 1` forced accesses to a fresh `Lazy` (`force`, or
the `Deref` impl that delegates to it), the stored initializer function is
invoked exactly once: the first force consumes it and caches its result, and
every access returns that cached result; in particular three forced accesses
leave a counter-incrementing initializer's counter at 1. -/
theorem lazy_initializer_at_most_once {T : Type} (r : T) (n : Nat) :
    Lazy.forceN (Lazy.new r) (n + 1)
      = (List.replicate (n + 1) (some r),
         { cell := OnceState.complete r, init := none }, 1)
    ∧ Lazy.forceN (Lazy.new r) 3
      = (List.replicate 3 (some r),
         { cell := OnceState.complete r, init := none }, 1) := by
  constructor
  · simp [Lazy.forceN, Lazy.force, Lazy.new, Once.try_call_once,
      forceN_complete, List.replicate]
  · simp [Lazy.forceN, Lazy.force, Lazy.new, Once.try_call_once,
      forceN_complete, List.replicate]

end Nospin
